import Mathlib

/-!
Shallow embedding of the GATK Python worker module
`src/main/python/org/broadinstitute/hellbender/gatktool/tool.py`.

The module drives two named pipes: an "ack" FIFO written by Python (tokens
`ack` / `nck`) and a "data" FIFO read by Python (newline-delimited lines).
Python-level failures are modelled explicitly: an `assert` that fails raises
`PyError.assertionError`, and calling a method on `None` (e.g.
`_ackFIFO.writeAck()` when `_ackFIFO is None`) raises
`PyError.attributeError`.  Externally visible actions (bytes flushed to the
ack pipe, invocation of the default `sys.__excepthook__`) are recorded as an
ordered list of `Effect`s.  Opening a pipe (`os.open` / `os.fdopen`) is
assumed to succeed: pipe-creation failures are environment faults outside the
claims considered here.  Python identifiers spelled `...FIFO` in the source
are rendered `...Fifo`.
-/

/-- The two Python exception classes the module can raise by itself:
a failing `assert` statement, and an attribute access on `None`. -/
inductive PyError where
  | assertionError
  | attributeError
  deriving DecidableEq, Repr

/-- The `(exceptionType, value, traceback)` triple passed to an exception
hook, kept abstract as printable descriptions. -/
structure ExcInfo where
  exceptionType : String
  value : String
  traceback : String
  deriving DecidableEq, Repr

/-- Externally observable actions of the worker: bytes flushed onto the ack
FIFO, and an invocation of the platform default hook `sys.__excepthook__`. -/
inductive Effect where
  | ackBytes (b : String)
  | defaultExcepthook (info : ExcInfo)
  deriving DecidableEq, Repr

/-- The value of `sys.excepthook`: either the interpreter default or the
module's `gatkExceptionHook`. -/
inductive Excepthook where
  | defaultHook
  | gatkHook
  deriving DecidableEq, Repr

/-- A buffered write handle (the `os.fdopen(fd, 'w')` file object): bytes
written but not yet flushed sit in `buffer`. -/
structure FileWriter where
  buffer : String
  deriving DecidableEq, Repr

/-- `file.write(s)`: append to the buffer, nothing reaches the pipe yet. -/
def FileWriter.write (w : FileWriter) (s : String) : FileWriter :=
  { buffer := w.buffer ++ s }

/-- `file.flush()`: push the buffered bytes onto the pipe (an `ackBytes`
effect); flushing an empty buffer does nothing. -/
def FileWriter.flush (w : FileWriter) : FileWriter × List Effect :=
  if w.buffer = "" then (w, [])
  else ({ buffer := "" }, [Effect.ackBytes w.buffer])

/-- The `AckFIFO` class: name of the pipe plus `self.fileWriter`, which is
`None` after `close`. -/
structure AckFifo where
  ackFifoName : String
  fileWriter : Option FileWriter
  deriving DecidableEq, Repr

/-- `AckFIFO._ackString`. -/
def AckFifo.ackString : String := "ack"

/-- `AckFIFO._nackString`. -/
def AckFifo.nackString : String := "nck"

/-- `AckFIFO.__init__`: open the pipe write-only and wrap it in a fresh
(empty-buffer) file object. -/
def AckFifo.init (ackFifoName : String) : AckFifo :=
  { ackFifoName := ackFifoName, fileWriter := some { buffer := "" } }

/-- `AckFIFO.writeAck`: `assert self.fileWriter != None`, write the `ack`
token, flush. -/
def AckFifo.writeAck (self : AckFifo) : Except PyError (AckFifo × List Effect) :=
  match self.fileWriter with
  | none => .error .assertionError
  | some w =>
      let w1 := w.write AckFifo.ackString
      let p := w1.flush
      .ok ({ self with fileWriter := some p.1 }, p.2)

/-- `AckFIFO.writeNack`: `assert self.fileWriter != None`, write the `nck`
token, flush. -/
def AckFifo.writeNack (self : AckFifo) : Except PyError (AckFifo × List Effect) :=
  match self.fileWriter with
  | none => .error .assertionError
  | some w =>
      let w1 := w.write AckFifo.nackString
      let p := w1.flush
      .ok ({ self with fileWriter := some p.1 }, p.2)

/-- `AckFIFO.close`: `assert self.fileWriter != None`, close the handle and
clear it (`self.fileWriter = None`). -/
def AckFifo.close (self : AckFifo) : Except PyError AckFifo :=
  match self.fileWriter with
  | none => .error .assertionError
  | some _ => .ok { self with fileWriter := none }

/-- A read handle on the data pipe: `pending` are the bytes the host has
written that Python has not yet consumed; `hostClosed` records whether the
host has closed its writing end (end-of-stream once `pending` runs out). -/
structure FileReader where
  pending : List Char
  hostClosed : Bool
  deriving DecidableEq, Repr

/-- Split a byte sequence at its first newline: `some (l, rest)` where `l`
ends with the first `'\n'` and `rest` is everything after it; `none` when no
newline is present. -/
def splitFirstLine : List Char → Option (List Char × List Char)
  | [] => none
  | c :: cs =>
      if c = '\n' then some ([c], cs)
      else
        match splitFirstLine cs with
        | none => none
        | some (l, rest) => some (c :: l, rest)

/-- `file.readline()` on a pipe: return the bytes up to and including the
first newline; at end-of-stream return whatever remains (the empty string if
nothing remains); block (`none`) when no newline is available and the host
has not closed its end. -/
def FileReader.readline (r : FileReader) : Option (List Char × FileReader) :=
  match splitFirstLine r.pending with
  | some (l, rest) => some (l, { r with pending := rest })
  | none =>
      if r.hostClosed then some (r.pending, { r with pending := [] })
      else none

/-- The `DataFIFO` class: name of the pipe plus `self.fileReader`, which is
`None` after `close`. -/
structure DataFifo where
  dataFifoName : String
  fileReader : Option FileReader
  deriving DecidableEq, Repr

/-- `DataFIFO.__init__`: open the pipe read-only.  The `host` argument
models the byte stream the named pipe will deliver (an input of the
environment, not of the Python constructor). -/
def DataFifo.init (dataFifoName : String) (host : FileReader) : DataFifo :=
  { dataFifoName := dataFifoName, fileReader := some host }

/-- `DataFIFO.readLine`: `assert self.fileReader != None`, then
`self.fileReader.readline()`; the inner `none` is a blocked read. -/
def DataFifo.readLine (self : DataFifo) :
    Except PyError (Option (List Char × DataFifo)) :=
  match self.fileReader with
  | none => .error .assertionError
  | some r =>
      match r.readline with
      | none => .ok none
      | some (l, r') => .ok (some (l, { self with fileReader := some r' }))

/-- `DataFIFO.close`: `assert self.fileReader != None`, close the handle and
clear it (`self.fileReader = None`). -/
def DataFifo.close (self : DataFifo) : Except PyError DataFifo :=
  match self.fileReader with
  | none => .error .assertionError
  | some _ => .ok { self with fileReader := none }

/-- The module-level state: globals `_ackFIFO`, `_dataFIFO` and the current
value of `sys.excepthook`. -/
structure GlobalState where
  ackFifo : Option AckFifo
  dataFifo : Option DataFifo
  excepthook : Excepthook
  deriving DecidableEq, Repr

/-- State right after module import: both globals are `None` and
`sys.excepthook` is the interpreter default. -/
def moduleInit : GlobalState :=
  { ackFifo := none, dataFifo := none, excepthook := .defaultHook }

/-- The two statements in the body of `onTraversalStart`, kept as separate
steps so the order in which they act on the state can be reasoned about. -/
inductive StartStep where
  | openAckFifo (name : String)
  | installHook
  deriving DecidableEq, Repr

/-- The body of `onTraversalStart(ackFIFOName)` as the sequence
`_ackFIFO = AckFIFO(ackFIFOName); sys.excepthook = gatkExceptionHook`. -/
def onTraversalStartSteps (name : String) : List StartStep :=
  [StartStep.openAckFifo name, StartStep.installHook]

/-- Effect of one `onTraversalStart` statement on the module state. -/
def execStartStep : StartStep → GlobalState → GlobalState
  | StartStep.openAckFifo name, s => { s with ackFifo := some (AckFifo.init name) }
  | StartStep.installHook, s => { s with excepthook := .gatkHook }

/-- Run a sequence of `onTraversalStart` statements in order. -/
def execStartSteps : List StartStep → GlobalState → GlobalState
  | [], s => s
  | st :: sts, s => execStartSteps sts (execStartStep st s)

/-- `onTraversalStart(ackFIFOName)`: open the ack FIFO, then install the
exception hook.  The body contains no `assert`, so it cannot raise an
assertion error. -/
def onTraversalStart (name : String) (s : GlobalState) : Except PyError GlobalState :=
  .ok (execStartSteps (onTraversalStartSteps name) s)

/-- `sendAck()`: `_ackFIFO.writeAck()`; when `_ackFIFO` is `None` this is an
attribute access on `None`. -/
def sendAck (s : GlobalState) : Except PyError (GlobalState × List Effect) :=
  match s.ackFifo with
  | none => .error .attributeError
  | some fifo =>
      match fifo.writeAck with
      | .error e => .error e
      | .ok (fifo', eff) => .ok ({ s with ackFifo := some fifo' }, eff)

/-- `sendNack()`: `_ackFIFO.writeNack()`; when `_ackFIFO` is `None` this is
an attribute access on `None`. -/
def sendNack (s : GlobalState) : Except PyError (GlobalState × List Effect) :=
  match s.ackFifo with
  | none => .error .attributeError
  | some fifo =>
      match fifo.writeNack with
      | .error e => .error e
      | .ok (fifo', eff) => .ok ({ s with ackFifo := some fifo' }, eff)

/-- `gatkExceptionHook(exceptionType, value, traceback)`: `sendNack()`, then
`sys.__excepthook__(exceptionType, value, traceback)`.  If `sendNack` raises,
the default hook is never reached. -/
def gatkExceptionHook (info : ExcInfo) (s : GlobalState) :
    Except PyError (GlobalState × List Effect) :=
  match sendNack s with
  | .error e => .error e
  | .ok (s', eff) => .ok (s', eff ++ [Effect.defaultExcepthook info])

/-- `onTraversalSuccess()`: the body is `pass`. -/
def onTraversalSuccess (s : GlobalState) : Except PyError GlobalState :=
  .ok s

/-- `closeTool()`: `assert _ackFIFO != None; _ackFIFO.close(); _ackFIFO =
None`. -/
def closeTool (s : GlobalState) : Except PyError GlobalState :=
  match s.ackFifo with
  | none => .error .assertionError
  | some fifo =>
      match fifo.close with
      | .error e => .error e
      | .ok _ => .ok { s with ackFifo := none }

/-- `initializeDataFIFO(dataFIFOName)`: `_dataFIFO = DataFIFO(dataFIFOName)`.
The body contains no `assert`.  `host` is the pipe's incoming byte stream
(see `DataFifo.init`). -/
def initializeDataFifo (name : String) (host : FileReader) (s : GlobalState) :
    Except PyError GlobalState :=
  .ok { s with dataFifo := some (DataFifo.init name host) }

/-- `closeDataFIFO()`: `assert _dataFIFO != None; _dataFIFO.close();
_dataFIFO = None`. -/
def closeDataFifo (s : GlobalState) : Except PyError GlobalState :=
  match s.dataFifo with
  | none => .error .assertionError
  | some fifo =>
      match fifo.close with
      | .error e => .error e
      | .ok _ => .ok { s with dataFifo := none }

/-- `readDataFIFO()`: `return _dataFIFO.readLine()`; when `_dataFIFO` is
`None` this is an attribute access on `None`. -/
def readDataFifo (s : GlobalState) :
    Except PyError (Option (List Char × GlobalState)) :=
  match s.dataFifo with
  | none => .error .attributeError
  | some fifo =>
      match fifo.readLine with
      | .error e => .error e
      | .ok none => .ok none
      | .ok (some (l, fifo')) => .ok (some (l, { s with dataFifo := some fifo' }))

/-- `n` successive `readline()` calls on a reader; `none` if any of them
blocks. -/
def readLinesN : Nat → FileReader → Option (List (List Char) × FileReader)
  | 0, r => some ([], r)
  | n + 1, r =>
      match r.readline with
      | none => none
      | some (l, r') =>
          match readLinesN n r' with
          | none => none
          | some (ls, r'') => some (l :: ls, r'')

/-- A well-formed host line: its first newline is its final character, i.e.
the line is nonempty, ends in `'\n'` and contains no earlier newline. -/
def wfLine (l : List Char) : Prop :=
  splitFirstLine l = some (l, [])

instance (l : List Char) : Decidable (wfLine l) := by
  unfold wfLine; infer_instance

theorem splitFirstLine_append (l rest a b : List Char)
    (h : splitFirstLine l = some (a, b)) :
    splitFirstLine (l ++ rest) = some (a, b ++ rest) := by
  induction l generalizing a b with
  | nil => simp [splitFirstLine] at h
  | cons c cs ih =>
      by_cases hc : c = '\n'
      · simp only [splitFirstLine, if_pos hc, Option.some.injEq, Prod.mk.injEq] at h
        obtain ⟨h1, h2⟩ := h
        subst h1; subst h2
        simp only [List.cons_append, splitFirstLine, if_pos hc, List.append_eq]
      · simp only [splitFirstLine, if_neg hc] at h
        cases hcs : splitFirstLine cs with
        | none => rw [hcs] at h; simp at h
        | some p =>
            obtain ⟨l', r'⟩ := p
            rw [hcs] at h
            simp only [Option.some.injEq, Prod.mk.injEq] at h
            obtain ⟨h1, h2⟩ := h
            subst h1; subst h2
            simp only [List.cons_append, splitFirstLine, if_neg hc, List.append_eq,
              ih l' r' hcs]

theorem splitFirstLine_upto_newline (l rest : List Char) (h : '\n' ∉ l) :
    splitFirstLine (l ++ '\n' :: rest) = some (l ++ ['\n'], rest) := by
  induction l with
  | nil => simp [splitFirstLine]
  | cons c cs ih =>
      have hc : c ≠ '\n' := fun e => h (by simp [e])
      have hcs : '\n' ∉ cs := fun m => h (List.mem_cons_of_mem _ m)
      simp only [List.cons_append, splitFirstLine, if_neg hc, List.append_eq, ih hcs]

/-- Claim C1: with the interceptor installed and the ack channel open, an
uncaught exception reaching `gatkExceptionHook` produces exactly the effect
trace `[ackBytes "nck", defaultExcepthook info]`: exactly one nack token is
flushed on the Acknowledgment Channel, and then the platform default hook is
invoked with the same exception triple (chained to, not replaced), so the
error stays observable on the default failure-reporting path. -/
theorem gatkExceptionHook_one_nack_then_default (info : ExcInfo) (s : GlobalState)
    (fifo : AckFifo) (w : FileWriter)
    (hfifo : s.ackFifo = some fifo) (hopen : fifo.fileWriter = some w)
    (hbuf : w.buffer = "") :
    gatkExceptionHook info s =
      .ok ({ s with ackFifo := some { fifo with fileWriter := some { buffer := "" } } },
        [Effect.ackBytes "nck", Effect.defaultExcepthook info]) := by
  simp [gatkExceptionHook, sendNack, hfifo, AckFifo.writeNack, hopen, hbuf,
    FileWriter.write, FileWriter.flush, AckFifo.nackString]

/-- Witness for C1 at a concrete state with the ack channel freshly opened. -/
theorem gatkExceptionHook_one_nack_then_default_witness :
    gatkExceptionHook { exceptionType := "E", value := "v", traceback := "tb" }
        { ackFifo := some (AckFifo.init "p"), dataFifo := none,
          excepthook := .gatkHook }
      = .ok ({ ackFifo := some (AckFifo.init "p"), dataFifo := none,
               excepthook := .gatkHook },
          [Effect.ackBytes "nck",
           Effect.defaultExcepthook
             { exceptionType := "E", value := "v", traceback := "tb" }]) :=
  gatkExceptionHook_one_nack_then_default
    { exceptionType := "E", value := "v", traceback := "tb" }
    { ackFifo := some (AckFifo.init "p"), dataFifo := none, excepthook := .gatkHook }
    (AckFifo.init "p") { buffer := "" } rfl rfl rfl

/-- Claim C2: on an open ack channel with nothing buffered, `writeAck`
flushes exactly the token `ack` and `writeNack` exactly the token `nck`
(each a single `ackBytes` effect within the same call, leaving the buffer
empty); both tokens are 3 bytes; on a closed channel both operations are an
assertion fault. -/
theorem ackFifo_write_tokens (self : AckFifo) (w : FileWriter)
    (hopen : self.fileWriter = some w) (hbuf : w.buffer = "") :
    self.writeAck = .ok ({ self with fileWriter := some { buffer := "" } },
        [Effect.ackBytes "ack"]) ∧
    self.writeNack = .ok ({ self with fileWriter := some { buffer := "" } },
        [Effect.ackBytes "nck"]) ∧
    AckFifo.ackString.length = 3 ∧ AckFifo.nackString.length = 3 ∧
    (∀ t : AckFifo, t.fileWriter = none →
      t.writeAck = .error .assertionError ∧ t.writeNack = .error .assertionError) := by
  refine ⟨?_, ?_, rfl, rfl, fun t ht => ⟨?_, ?_⟩⟩
  · simp [AckFifo.writeAck, hopen, hbuf, FileWriter.write, FileWriter.flush,
      AckFifo.ackString]
  · simp [AckFifo.writeNack, hopen, hbuf, FileWriter.write, FileWriter.flush,
      AckFifo.nackString]
  · simp [AckFifo.writeAck, ht]
  · simp [AckFifo.writeNack, ht]

/-- Witness for C2 on a freshly opened ack channel. -/
theorem ackFifo_write_tokens_witness :
    (AckFifo.init "p").writeAck
      = .ok ({ AckFifo.init "p" with fileWriter := some { buffer := "" } },
          [Effect.ackBytes "ack"]) ∧
    (AckFifo.init "p").writeNack
      = .ok ({ AckFifo.init "p" with fileWriter := some { buffer := "" } },
          [Effect.ackBytes "nck"]) :=
  ⟨(ackFifo_write_tokens (AckFifo.init "p") { buffer := "" } rfl rfl).1,
   (ackFifo_write_tokens (AckFifo.init "p") { buffer := "" } rfl rfl).2.1⟩

/-- Claim C3: in the statement sequence of `onTraversalStart`, after any
prefix of the body that already contains the hook-installation step, the ack
channel is present — the hook is installed only after the Acknowledgment
Channel has been opened, so it is never installed while the channel is
absent. -/
theorem hook_installed_only_after_ack_open (name : String) (s : GlobalState)
    (p : List StartStep) (hp : p <+: onTraversalStartSteps name)
    (hmem : StartStep.installHook ∈ p) :
    (execStartSteps p s).ackFifo ≠ none := by
  obtain ⟨t, ht⟩ := hp
  cases p with
  | nil => simp at hmem
  | cons x q =>
      cases q with
      | nil =>
          simp only [onTraversalStartSteps, List.cons_append, List.nil_append,
            List.cons.injEq] at ht
          obtain ⟨rfl, -⟩ := ht
          simp at hmem
      | cons y q' =>
          cases q' with
          | nil =>
              simp only [onTraversalStartSteps, List.cons_append, List.nil_append,
                List.cons.injEq] at ht
              obtain ⟨rfl, rfl, -⟩ := ht
              simp [execStartSteps, execStartStep]
          | cons z q'' =>
              simp only [onTraversalStartSteps, List.cons_append,
                List.cons.injEq] at ht
              obtain ⟨-, -, ht⟩ := ht
              exact absurd ht (by simp)

/-- Witness for C3: the full body of `onTraversalStart "p"` run from the
module-import state leaves the ack channel present. -/
theorem hook_installed_only_after_ack_open_witness :
    (execStartSteps (onTraversalStartSteps "p") moduleInit).ackFifo ≠ none :=
  hook_installed_only_after_ack_open "p" moduleInit (onTraversalStartSteps "p")
    (List.prefix_refl _) (by simp [onTraversalStartSteps])

/-- Claim C4 counterexample: with the ack channel already open, a second
`onTraversalStart` is not an assertion fault — it succeeds and silently
replaces the handle with a freshly opened one; likewise `initializeDataFIFO`
with the data channel already open does not fault. -/
theorem double_open_no_fault_counterexample :
    onTraversalStart "q"
        { ackFifo := some (AckFifo.init "p"), dataFifo := none,
          excepthook := .gatkHook }
      ≠ .error .assertionError ∧
    onTraversalStart "q"
        { ackFifo := some (AckFifo.init "p"), dataFifo := none,
          excepthook := .gatkHook }
      = .ok { ackFifo := some (AckFifo.init "q"), dataFifo := none,
              excepthook := .gatkHook } ∧
    AckFifo.init "q" ≠ AckFifo.init "p" ∧
    initializeDataFifo "d2" { pending := [], hostClosed := false }
        { ackFifo := none,
          dataFifo := some (DataFifo.init "d1" { pending := [], hostClosed := false }),
          excepthook := .gatkHook }
      ≠ .error .assertionError :=
  ⟨fun h => Except.noConfusion h, rfl, by decide, fun h => Except.noConfusion h⟩

/-- Claim C4 as amended: `onTraversalStart` and `initializeDataFIFO` contain
no assertion at all; from any state — the channel open or not — they succeed
and unconditionally overwrite the stored handle with a newly opened one. -/
theorem open_replaces_handle (name : String) (host : FileReader) (s : GlobalState) :
    onTraversalStart name s =
      .ok { s with ackFifo := some (AckFifo.init name), excepthook := .gatkHook } ∧
    initializeDataFifo name host s =
      .ok { s with dataFifo := some (DataFifo.init name host) } :=
  ⟨rfl, rfl⟩

/-- Claim C5: `closeTool` (resp. `closeDataFIFO`) on an absent channel is an
assertion fault; on an open channel it succeeds and clears the handle, so an
immediately repeated close is an assertion fault. -/
theorem close_clears_and_double_close_faults (s : GlobalState)
    (fifo : AckFifo) (w : FileWriter) (dfifo : DataFifo) (r : FileReader) :
    (s.ackFifo = none → closeTool s = .error .assertionError) ∧
    (s.dataFifo = none → closeDataFifo s = .error .assertionError) ∧
    (s.ackFifo = some fifo → fifo.fileWriter = some w →
      closeTool s = .ok { s with ackFifo := none } ∧
      closeTool { s with ackFifo := none } = .error .assertionError) ∧
    (s.dataFifo = some dfifo → dfifo.fileReader = some r →
      closeDataFifo s = .ok { s with dataFifo := none } ∧
      closeDataFifo { s with dataFifo := none } = .error .assertionError) := by
  refine ⟨fun h => ?_, fun h => ?_, fun h hw => ⟨?_, ?_⟩, fun h hr => ⟨?_, ?_⟩⟩
  · simp [closeTool, h]
  · simp [closeDataFifo, h]
  · simp [closeTool, h, AckFifo.close, hw]
  · simp [closeTool]
  · simp [closeDataFifo, h, DataFifo.close, hr]
  · simp [closeDataFifo]

/-- Witness for C5: closing a freshly opened ack channel succeeds and clears
it, and the second close faults. -/
theorem close_clears_and_double_close_faults_witness :
    closeTool { ackFifo := some (AckFifo.init "p"), dataFifo := none,
                excepthook := .gatkHook }
      = .ok { ackFifo := none, dataFifo := none, excepthook := .gatkHook } ∧
    closeTool { ackFifo := none, dataFifo := none, excepthook := .gatkHook }
      = .error .assertionError :=
  (close_clears_and_double_close_faults
      { ackFifo := some (AckFifo.init "p"), dataFifo := none, excepthook := .gatkHook }
      (AckFifo.init "p") { buffer := "" }
      (DataFifo.init "d" { pending := [], hostClosed := false })
      { pending := [], hostClosed := false }).2.2.1 rfl rfl

/-- Claim C6: on an open data channel whose pending bytes start with a
newline-terminated line, `readLine` returns exactly those bytes up to and
including the newline and leaves the rest pending; at end-of-stream (host
closed, nothing pending) it returns the empty string. -/
theorem readLine_returns_one_line (self : DataFifo) (r : FileReader)
    (hopen : self.fileReader = some r) :
    (∀ l rest, '\n' ∉ l → r.pending = l ++ '\n' :: rest →
      self.readLine = .ok (some (l ++ ['\n'],
        { self with fileReader := some { r with pending := rest } }))) ∧
    (r.pending = [] → r.hostClosed = true →
      self.readLine = .ok (some ([],
        { self with fileReader := some { r with pending := [] } }))) := by
  constructor
  · intro l rest hl hp
    simp [DataFifo.readLine, hopen, FileReader.readline, hp,
      splitFirstLine_upto_newline l rest hl]
  · intro hp hc
    simp [DataFifo.readLine, hopen, FileReader.readline, hp, hc, splitFirstLine]

/-- Witness for C6 on a concrete channel holding bytes `A\nB`. -/
theorem readLine_returns_one_line_witness :
    (DataFifo.init "d" { pending := ['A', '\n', 'B'], hostClosed := false }).readLine
      = .ok (some (['A', '\n'],
          DataFifo.init "d" { pending := ['B'], hostClosed := false })) :=
  (readLine_returns_one_line
      (DataFifo.init "d" { pending := ['A', '\n', 'B'], hostClosed := false })
      { pending := ['A', '\n', 'B'], hostClosed := false } rfl).1
    ['A'] ['B'] (by decide) rfl

/-- Claim C7: round-trip over the data channel — if the host writes a
sequence of newline-terminated lines, then that many successive `readline`
calls return exactly those lines in the original order, consuming the whole
stream. -/
theorem dataFifo_round_trip (lines : List (List Char)) (b : Bool)
    (h : ∀ l ∈ lines, wfLine l) :
    readLinesN lines.length { pending := lines.flatten, hostClosed := b }
      = some (lines, { pending := [], hostClosed := b }) := by
  induction lines with
  | nil => rfl
  | cons l ls ih =>
      have hl : wfLine l := h l (List.mem_cons_self l ls)
      have hls : ∀ x ∈ ls, wfLine x := fun x hx => h x (List.mem_cons_of_mem _ hx)
      have hsplit : splitFirstLine (l ++ ls.flatten) = some (l, [] ++ ls.flatten) :=
        splitFirstLine_append l ls.flatten l [] hl
      simp only [List.nil_append] at hsplit
      simp [readLinesN, FileReader.readline, List.flatten, hsplit, ih hls]

/-- Witness for C7: the host writes `A\n`, `B\n`, `C\n`; three reads return
those three lines in order. -/
theorem dataFifo_round_trip_witness :
    readLinesN 3 { pending := ['A', '\n', 'B', '\n', 'C', '\n'], hostClosed := false }
      = some ([['A', '\n'], ['B', '\n'], ['C', '\n']],
          { pending := [], hostClosed := false }) :=
  dataFifo_round_trip [['A', '\n'], ['B', '\n'], ['C', '\n']] false (by decide)

/-- Claim C8: `onTraversalSuccess` is a no-op — from any module state it
succeeds and leaves the ack channel, the data channel and the installed
exception hook all exactly as they were. -/
theorem onTraversalSuccess_noop (s : GlobalState) :
    ∃ s', onTraversalSuccess s = .ok s' ∧ s'.ackFifo = s.ackFifo ∧
      s'.dataFifo = s.dataFifo ∧ s'.excepthook = s.excepthook :=
  ⟨s, rfl, rfl, rfl, rfl⟩

/-- Claim C9: with the corresponding channel absent, `sendAck`, `sendNack`
and `readDataFIFO` fail by dereferencing `None` (an attribute error), which
is a different failure than the defensive assertion fault the close
operations use. -/
theorem absent_channel_attribute_error (s : GlobalState) :
    (s.ackFifo = none →
      sendAck s = .error .attributeError ∧ sendNack s = .error .attributeError) ∧
    (s.dataFifo = none → readDataFifo s = .error .attributeError) ∧
    PyError.attributeError ≠ PyError.assertionError := by
  refine ⟨fun h => ⟨?_, ?_⟩, fun h => ?_, by decide⟩
  · simp [sendAck, h]
  · simp [sendNack, h]
  · simp [readDataFifo, h]

/-- Witness for C9 at the module-import state, where both channels are
absent. -/
theorem absent_channel_attribute_error_witness :
    sendAck moduleInit = .error .attributeError ∧
    sendNack moduleInit = .error .attributeError ∧
    readDataFifo moduleInit = .error .attributeError :=
  ⟨((absent_channel_attribute_error moduleInit).1 rfl).1,
   ((absent_channel_attribute_error moduleInit).1 rfl).2,
   (absent_channel_attribute_error moduleInit).2.1 rfl⟩

/-- Claim C10: `onTraversalStart` installs the hook, and neither `closeTool`
nor `onTraversalSuccess` changes the installed hook; after `closeTool` the
ack channel is absent, in which state `gatkExceptionHook` itself fails with
an attribute error (its nack write dereferences `None`), producing no
effects, so no nack reaches the host. -/
theorem hook_never_uninstalled (name : String) (s s' : GlobalState) (info : ExcInfo) :
    (∀ t, onTraversalStart name s = .ok t → t.excepthook = .gatkHook) ∧
    (closeTool s = .ok s' → s'.excepthook = s.excepthook) ∧
    (onTraversalSuccess s = .ok s' → s'.excepthook = s.excepthook) ∧
    (s.ackFifo = none → gatkExceptionHook info s = .error .attributeError) := by
  refine ⟨fun t ht => ?_, fun hc => ?_, fun hs => ?_, fun ha => ?_⟩
  · cases ht
    rfl
  · cases hfifo : s.ackFifo with
    | none => simp [closeTool, hfifo] at hc
    | some fifo =>
        cases hw : fifo.close with
        | error e => simp [closeTool, hfifo, hw] at hc
        | ok f =>
            simp only [closeTool, hfifo, hw, Except.ok.injEq] at hc
            subst hc
            rfl
  · cases hs
    rfl
  · simp [gatkExceptionHook, sendNack, ha]

/-- Witness for C10: closing the tool preserves the installed hook, and the
hook then fails with an attribute error on the closed ack channel. -/
theorem hook_never_uninstalled_witness :
    ({ ackFifo := none, dataFifo := none, excepthook := .gatkHook } : GlobalState).excepthook
      = ({ ackFifo := some (AckFifo.init "p"), dataFifo := none,
           excepthook := .gatkHook } : GlobalState).excepthook ∧
    gatkExceptionHook { exceptionType := "E", value := "v", traceback := "tb" }
        { ackFifo := none, dataFifo := none, excepthook := .gatkHook }
      = .error .attributeError :=
  ⟨(hook_never_uninstalled "p"
      { ackFifo := some (AckFifo.init "p"), dataFifo := none, excepthook := .gatkHook }
      { ackFifo := none, dataFifo := none, excepthook := .gatkHook }
      { exceptionType := "E", value := "v", traceback := "tb" }).2.1 rfl,
   (hook_never_uninstalled "p"
      { ackFifo := none, dataFifo := none, excepthook := .gatkHook }
      { ackFifo := none, dataFifo := none, excepthook := .gatkHook }
      { exceptionType := "E", value := "v", traceback := "tb" }).2.2.2 rfl⟩
